import Mathlib

/-!
Verification of the reactord PFR library against its specification.

The development shallowly embeds the Python sources into Lean:

* `src/reactord/Mix.py` — `Abstract_Mix.mol_fracations`, `partial_pressures`
  attribute shadowing in `partial_P_2_conc`, and
  `IdealGas_Mix.pure_heat_capacities_integral`;
* `src/reactord/kinetics.py` — the `Kinetics` class: stoichiometry-matrix
  normalisation, `kinetic_eval`, `reaction_enthalpies`;
* `src/reactord/mix/ideal_gas.py` — `IdealGas.volume`;
* `src/reactord/flowreactors/stationary_1d/pfr/pfr.py` — boundary-condition
  assembly (`border_conditions_builder`, `border_conditions`) and `simulate`;
* `src/reactord/flowreactors/stationary_1d/pfr/pressure_balances/ergun.py` —
  `Ergun.__init__` and its inlet/outlet pressure check.

NumPy float arrays are modelled by lists (or `Fin`-indexed functions) of
rationals, so the algebraic identities hold exactly; `scipy.integrate.quad`
of a substance heat-capacity correlation is modelled by a per-substance
definite-integral function of the two temperature bounds; a Python value
that may be `None` is modelled by `Option`; Python exceptions are modelled
with `Except`/`Option` result types.
-/

/- ===================================================================
   Shared list linear algebra (models of the NumPy primitives used)
   =================================================================== -/

/-- Model of `np.dot` of two 1-D arrays: sum of the elementwise products. -/
def dotList (a b : List ℚ) : ℚ :=
  (List.zipWith (· * ·) a b).sum

/-- Model of `np.dot` of a 2-D array with a 1-D array: one dot product per
row of the matrix. -/
def matVecMul (m : List (List ℚ)) (v : List ℚ) : List ℚ :=
  m.map (fun row => dotList row v)

/-- Model of `np.matmul` of a 1-D array `v` with a 2-D array `m`
(`np.matmul(reaction_rates, stoichiometry)`): entry `s` of the result is
the sum over rows `r` of `v[r] * m[r][s]`; the width is the length of the
first row, as given by the array shape. -/
def vecMatMul (v : List ℚ) (m : List (List ℚ)) : List ℚ :=
  (List.range (m.headD []).length).map
    (fun s => ∑ r in Finset.range m.length, v.getD r 0 * (m.getD r []).getD s 0)

/- ===================================================================
   Substance and mixture data (Mix.py and the old Mix class)
   =================================================================== -/

/-- Per-substance property data. `heat_capacity_gas_integral a b` models
the value of `scipy.integrate.quad(substance.heat_capacity_gas, a, b)`
(the definite integral of the gas heat-capacity correlation from `a` to
`b`); `heat_capacity_liquid_integral` likewise for the liquid correlation.
`formation_enthalpy_ig` is the ideal-gas standard formation enthalpy. -/
structure SubstanceM where
  heat_capacity_gas_integral : ℚ → ℚ → ℚ
  heat_capacity_liquid_integral : ℚ → ℚ → ℚ
  formation_enthalpy_ig : ℚ

/-- The slice of the old `Mix` object that `Kinetics` reads: its phase tag
(a Python string), its substances and its `h_formations` vector. -/
structure MixM where
  phase : String
  substances : List SubstanceM
  h_formations : List ℚ

/-- Model of `Abstract_Mix.mol_fracations` (`Mix.py`): the composition is a
matrix with one row per substance and one column per grid node;
`total_moles = np.sum(moles, axis=0)` is the per-column sum. -/
def Abstract_Mix.total_moles {n m : ℕ} (moles : Fin n → Fin m → ℚ) : Fin m → ℚ :=
  fun j => ∑ i, moles i j

/-- `zi = np.divide(moles, total_moles)`: each entry divided by its column
total (NumPy broadcasting of the row of totals). -/
def Abstract_Mix.mol_fracations {n m : ℕ} (moles : Fin n → Fin m → ℚ) :
    Fin n → Fin m → ℚ :=
  fun i j => moles i j / Abstract_Mix.total_moles moles j

/- ===================================================================
   Attribute shadowing in Abstract_Mix.partial_P_2_conc (Mix.py)
   =================================================================== -/

/-- The slice of a mixture object relevant to Python attribute lookup of
the name `partial_pressures`: the instance attribute of that name, absent
(`none`) until something assigns it. -/
structure MixObj where
  partial_pressures_attr : Option (List ℚ)

/-- What Python attribute lookup of `partial_pressures` on a mixture object
yields: the bound method from the class when no instance attribute of that
name exists, otherwise the instance attribute (an array). -/
inductive PPAttr where
  | boundMethod
  | arrayVal (a : List ℚ)
deriving DecidableEq

/-- Whether the looked-up attribute can be called like the method. -/
def PPAttr.callable : PPAttr → Bool
  | .boundMethod => true
  | .arrayVal _ => false

/-- Python attribute lookup of `partial_pressures` on a mixture object:
the instance dictionary shadows the class method. -/
def MixObj.getattr_partial_pressures (o : MixObj) : PPAttr :=
  match o.partial_pressures_attr with
  | some a => PPAttr.arrayVal a
  | none => PPAttr.boundMethod

/-- Model of `Abstract_Mix.partial_P_2_conc` (`Mix.py` lines 125-129): it
assigns `self.partial_pressures = np.array(partial_pressures)` — an
instance attribute with the same name as the method — and returns the
concentrations `partial_pressures / (R * temperature)`. The returned pair
is (updated object, returned array). -/
def Abstract_Mix.partial_P_2_conc (o : MixObj) (partial_pressures : List ℚ)
    (temperature : ℚ) : MixObj × List ℚ :=
  let R : ℚ := 8.31446261815324
  let o' : MixObj := { o with partial_pressures_attr := some partial_pressures }
  (o', partial_pressures.map (fun p => p / (R * temperature)))

/- ===================================================================
   IdealGas_Mix.pure_heat_capacities_integral (Mix.py)
   =================================================================== -/

/-- The message of the `TypeError` raised by `np.append` when called with a
single positional argument (its required `values` argument missing). -/
def np_append_missing_values_msg : String :=
  "append missing 1 required positional argument: values"

/-- Model of the call `np.append((correction_enthalpies, integral))` in
`IdealGas_Mix.pure_heat_capacities_integral`: `np.append` receives the
single tuple argument and no `values` argument, so it raises a `TypeError`
instead of returning an array. -/
def np_append_arr_only (args : List ℚ × ℚ) : Except String (List ℚ) :=
  Except.error np_append_missing_values_msg

/-- The slice of the old `IdealGas_Mix` object the claims need. -/
structure IdealGas_Mix where
  substances : List SubstanceM

/-- `self.formation_enthalpies`, set in `IdealGas_Mix.__init__`. -/
def IdealGas_Mix.formation_enthalpies (m : IdealGas_Mix) : List ℚ :=
  m.substances.map (·.formation_enthalpy_ig)

/-- Model of `IdealGas_Mix.pure_heat_capacities_integral` (`Mix.py` lines
247-274): for each substance it integrates the gas heat capacity from
298.15 K to `temperature` and then calls
`np.append((correction_enthalpies, integral))`; a raised exception
propagates out of the loop. On normal return the corrected enthalpies are
`correction_enthalpies + self.formation_enthalpies`. -/
def IdealGas_Mix.pure_heat_capacities_integral (m : IdealGas_Mix)
    (temperature : ℚ) : Except String (List ℚ) :=
  let ref_temperature : ℚ := 298.15
  match m.substances.foldlM
      (fun correction_enthalpies substance =>
        np_append_arr_only
          (correction_enthalpies,
           substance.heat_capacity_gas_integral ref_temperature temperature))
      ([] : List ℚ) with
  | Except.error e => Except.error e
  | Except.ok correction_enthalpies =>
      Except.ok (List.zipWith (· + ·) correction_enthalpies m.formation_enthalpies)

/- ===================================================================
   Kinetics (kinetics.py)
   =================================================================== -/

/-- The stoichiometry argument of `Kinetics.__init__`: either a flat list
(`len(np.shape(stoichiometry)) == 1`, a single reaction) or a 2-D
list/array (one row per reaction). -/
inductive StoichiometryInput where
  | flat (coeffs : List ℚ)
  | twoD (rows : List (List ℚ))

/-- `self.num_reactions` as computed in `Kinetics.__init__`. -/
def StoichiometryInput.num_reactions : StoichiometryInput → ℕ
  | .flat _ => 1
  | .twoD rows => rows.length

/-- `self.total_comp` as computed in `Kinetics.__init__` (for a 2-D input,
the second component of `np.shape`, i.e. the row width). -/
def StoichiometryInput.total_comp : StoichiometryInput → ℕ
  | .flat coeffs => coeffs.length
  | .twoD rows => (rows.headD []).length

/-- The row-major data of `np.array(stoichiometry)`. -/
def StoichiometryInput.flatten : StoichiometryInput → List ℚ
  | .flat coeffs => coeffs
  | .twoD rows => rows.flatten

/-- Model of `ndarray.reshape((rows, cols))` on row-major data: cut the
flat data into `rows` consecutive rows of `cols` entries. -/
def reshapeRows : List ℚ → ℕ → ℕ → List (List ℚ)
  | _, 0, _ => []
  | data, r + 1, c => data.take c :: reshapeRows (data.drop c) r c

/-- `self.stoichiometry = np.array(stoichiometry).reshape((num_reactions,
total_comp))` in `Kinetics.__init__`. -/
def normalize_stoichiometry (s : StoichiometryInput) : List (List ℚ) :=
  reshapeRows s.flatten s.num_reactions s.total_comp

/-- The `Kinetics` object (`kinetics.py`): the user rate functions (each a
function of composition and temperature), the mixture, the normalised
stoichiometry matrix and the composition calculator selected by the
`kinetic_argument` string (`mix.concentrations` or
`mix.partial_pressures`, abstracted as a function of moles, temperature
and pressure). -/
structure Kinetics where
  reactions : List (List ℚ → ℚ → ℚ)
  mix : MixM
  stoichiometry : List (List ℚ)
  composition_calculator : List ℚ → ℚ → ℚ → List ℚ

/-- `self.std_reaction_enthalpies = np.dot(self.stoichiometry,
self.mix.h_formations)`. -/
def Kinetics.std_reaction_enthalpies (k : Kinetics) : List ℚ :=
  matVecMul k.stoichiometry k.mix.h_formations

/-- Model of `Kinetics.kinetic_eval` (`kinetics.py` lines 109-135):
compute the composition, evaluate each reaction rate function on it, and
return `(np.matmul(reaction_rates, stoichiometry), reaction_rates)`. -/
def Kinetics.kinetic_eval (k : Kinetics) (moles : List ℚ)
    (temperature pressure : ℚ) : List ℚ × List ℚ :=
  let composition := k.composition_calculator moles temperature pressure
  let reaction_rates := k.reactions.map (fun reaction => reaction composition temperature)
  let rates_i := vecMatMul reaction_rates k.stoichiometry
  (rates_i, reaction_rates)

/-- The reference temperature `t_0 = 298.15` of `Kinetics.reaction_enthalpies`. -/
def t_0 : ℚ := 298.15

/-- Model of `Kinetics.reaction_enthalpies` (`kinetics.py` lines 140-165):
for a liquid mixture, `dh = np.dot(stoichiometry, cp_dt_integrals)` of the
liquid heat-capacity integrals from 298.15 K to `temperature`; for a gas
mixture the same with the gas correlation; any other phase leaves `dh`
unassigned, so the method raises (`none` here). The result is
`dh + self.std_reaction_enthalpies`. -/
def Kinetics.reaction_enthalpies (k : Kinetics) (temperature pressure : ℚ) :
    Option (List ℚ) :=
  if k.mix.phase = "liquid" then
    some (List.zipWith (· + ·)
      (matVecMul k.stoichiometry
        (k.mix.substances.map
          (fun s => s.heat_capacity_liquid_integral t_0 temperature)))
      k.std_reaction_enthalpies)
  else if k.mix.phase = "gas" then
    some (List.zipWith (· + ·)
      (matVecMul k.stoichiometry
        (k.mix.substances.map
          (fun s => s.heat_capacity_gas_integral t_0 temperature)))
      k.std_reaction_enthalpies)
  else none

/- ===================================================================
   IdealGas.volume (mix/ideal_gas.py)
   =================================================================== -/

/-- Model of `IdealGas.volume` (`mix/ideal_gas.py` lines 45-81):
`volume = r * np.divide(temperature, pressure)` with
`r = 8.31446261815324`; the `mole_fractions` argument is accepted but
unused. -/
def IdealGas.volume (mole_fractions : List ℚ) (temperature pressure : ℚ) : ℚ :=
  let r : ℚ := 8.31446261815324
  r * (temperature / pressure)

/- ===================================================================
   Ergun pressure balance (pressure_balances/ergun.py)
   =================================================================== -/

/-- The Ergun balance object after a successful `__init__`. -/
structure Ergun where
  inlet_pressure : Option ℚ
  outlet_pressure : Option ℚ
  porosity : ℚ
  particle_diameter : ℚ

/-- Python truthiness of a float-or-None value: `None` and `0.0` are
falsy, any other float is truthy. -/
def pyTruthy : Option ℚ → Bool
  | none => false
  | some v => decide (v ≠ 0)

/-- The message of the `ValueError` raised by `Ergun.__init__`. -/
def ergun_both_msg : String :=
  "Pressure balance error: Only inlet or outlet border condition specification allowed for the pressure."

/-- Model of `Ergun.__init__` (`ergun.py` lines 11-23): the pressure
dictionary is read with `pressure.get("in")` and `pressure.get("out")`
(the pair's components; `none` models an absent key), and the constructor
raises `ValueError` when `self._inlet_pressure and self._outlet_pressure`
is truthy. -/
def Ergun.init (pressure : Option ℚ × Option ℚ)
    (porosity particle_diameter : ℚ) : Except String Ergun :=
  let inlet := pressure.1
  let outlet := pressure.2
  if pyTruthy inlet && pyTruthy outlet then
    Except.error ergun_both_msg
  else
    Except.ok
      { inlet_pressure := inlet
        outlet_pressure := outlet
        porosity := porosity
        particle_diameter := particle_diameter }

/- ===================================================================
   PFR boundary conditions (pfr.py)
   =================================================================== -/

/-- The `(inlet, outlet)` pair returned by one balance strategy's
`border_conditions(reactor)`: per governed state-vector row, a specified
value or `None`. -/
structure BalanceBC where
  inlet : List (Option ℚ)
  outlet : List (Option ℚ)

/-- The fields `PFR.border_conditions_builder` assembles on the reactor. -/
structure BuiltBC where
  inlet_conditions : List (Option ℚ)
  outlet_conditions : List (Option ℚ)
  in_index : List ℕ
  out_index : List ℕ

/-- `np.argwhere(np.not_equal(conditions, None)).ravel()`: the increasing
list of row indices holding a specified (non-`None`) value. -/
def specified_indices (conditions : List (Option ℚ)) : List ℕ :=
  (List.range conditions.length).filter (fun i => (conditions.getD i none).isSome)

/-- Model of `PFR.border_conditions_builder` (`pfr.py` lines 69-93): the
per-balance inlet values are concatenated with `np.append` in the order
mass, temperature, pressure (likewise for outlet values), and the index
arrays record which rows carry a specified value. -/
def border_conditions_builder (mass_bc temperature_bc pressure_bc : BalanceBC) :
    BuiltBC :=
  let inlet := mass_bc.inlet ++ temperature_bc.inlet ++ pressure_bc.inlet
  let outlet := mass_bc.outlet ++ temperature_bc.outlet ++ pressure_bc.outlet
  { inlet_conditions := inlet
    outlet_conditions := outlet
    in_index := specified_indices inlet
    out_index := specified_indices outlet }

/-- Model of `PFR.border_conditions` (`pfr.py` lines 95-104): starting
from an empty array, append `ya[idx] - inlet_conditions[idx]` for each
`idx` in `_in_index`, then `yb[idx] - outlet_conditions[idx]` for each
`idx` in `_out_index`. -/
def PFR.border_conditions (b : BuiltBC) (ya yb : ℕ → ℚ) : List ℚ :=
  let bc : List ℚ := []
  let bc := b.in_index.foldl
    (fun acc idx => acc ++ [ya idx - (b.inlet_conditions.getD idx none).getD 0]) bc
  b.out_index.foldl
    (fun acc idx => acc ++ [yb idx - (b.outlet_conditions.getD idx none).getD 0]) bc

/- ===================================================================
   PFR.simulate (pfr.py)
   =================================================================== -/

/-- The object `scipy.integrate.solve_bvp` returns: the final mesh, the
solution rows, and the termination status (`status = 0` means converged;
`success = (status == 0)`). -/
structure BvpResult where
  x : List ℚ
  y : List (List ℚ)
  status : Int

/-- The `success` flag of a `solve_bvp` result. -/
def BvpResult.success (r : BvpResult) : Bool :=
  r.status == 0

/-- The slice of the PFR object state that `simulate` writes. -/
structure PFRState where
  grid_size : ℕ
  initial_grid_size : ℕ
  simulation : Option BvpResult
  sim_df : Option (List String × List (List ℚ))

/-- The labelled results table `simulate` builds: the column labels
`"z"`, one per substance name, then temperature, refrigerant temperature
and pressure; the data is `np.vstack((simulation.x, simulation.y))`. -/
def packageResult (res : BvpResult) (names : List String) :
    List String × List (List ℚ) :=
  (["z"] ++ names ++ ["temperature", "refrigerant_temperature", "pressure"],
   res.x :: res.y)

/-- Model of `PFR.simulate` (`pfr.py` lines 135-163): the grid size is
reset, the solver (an external collaborator, here a parameter) is invoked,
its full result object is stored in `self.simulation`, and the packaged
table is stored in `self._sim_df`. -/
def PFR.simulate (solver : Unit → BvpResult) (names : List String)
    (st : PFRState) : PFRState :=
  let res := solver ()
  { st with
    grid_size := st.initial_grid_size
    simulation := some res
    sim_df := some (packageResult res names) }

/- ===================================================================
   Helper lemmas
   =================================================================== -/

lemma getD_range_map (f : ℕ → ℚ) {n i : ℕ} (h : i < n) :
    ((List.range n).map f).getD i 0 = f i := by
  rw [List.getD_eq_getElem?_getD, List.getElem?_map, List.getElem?_range h]
  rfl

lemma getD_isSome_lt (conditions : List (Option ℚ)) (i : ℕ)
    (h : (conditions.getD i none).isSome) : i < conditions.length := by
  by_contra hc
  push_neg at hc
  rw [List.getD_eq_default _ _ hc] at h
  simp at h

lemma mem_specified_indices (conditions : List (Option ℚ)) (i : ℕ) :
    i ∈ specified_indices conditions ↔ (conditions.getD i none).isSome = true := by
  unfold specified_indices
  rw [List.mem_filter, List.mem_range]
  constructor
  · rintro ⟨_, h⟩
    exact h
  · intro h
    exact ⟨getD_isSome_lt conditions i h, h⟩

lemma pairwise_specified_indices (conditions : List (Option ℚ)) :
    List.Pairwise (· < ·) (specified_indices conditions) :=
  (List.pairwise_lt_range _).filter _

lemma nodup_specified_indices (conditions : List (Option ℚ)) :
    (specified_indices conditions).Nodup :=
  (pairwise_specified_indices conditions).imp ne_of_lt

lemma foldl_append_singleton (f : ℕ → ℚ) :
    ∀ (l : List ℕ) (acc : List ℚ),
      l.foldl (fun a i => a ++ [f i]) acc = acc ++ l.map f := by
  intro l
  induction l with
  | nil => simp
  | cons x xs ih => intro acc; simp [ih]

lemma dotList_zero_right (a : List ℚ) :
    ∀ v : List ℚ, (∀ x ∈ v, x = 0) → dotList a v = 0 := by
  induction a with
  | nil => intro v _; simp [dotList]
  | cons x xs ih =>
    intro v hv
    cases v with
    | nil => simp [dotList]
    | cons y ys =>
      have hy : y = 0 := hv y (by simp)
      have hys : ∀ z ∈ ys, z = 0 := fun z hz => hv z (by simp [hz])
      have := ih ys hys
      simp only [dotList, List.zipWith_cons_cons, List.sum_cons] at *
      rw [hy, mul_zero, zero_add]
      exact this

lemma map_congr_all {α β : Type} (l : List α) (f g : α → β)
    (h : ∀ a ∈ l, f a = g a) : l.map f = l.map g := by
  induction l with
  | nil => rfl
  | cons x xs ih =>
    simp only [List.map_cons]
    rw [h x (by simp), ih (fun a ha => h a (by simp [ha]))]

lemma zipWith_add_map {α : Type} (l : List α) (f g : α → ℚ) :
    List.zipWith (· + ·) (l.map f) (l.map g) = l.map (fun x => f x + g x) := by
  induction l with
  | nil => rfl
  | cons x xs ih => simp [ih]

lemma pyTruthy_iff (o : Option ℚ) :
    pyTruthy o = true ↔ ∃ a, o = some a ∧ a ≠ 0 := by
  cases o with
  | none => simp [pyTruthy]
  | some v => simp [pyTruthy]

/- ===================================================================
   Claim theorems
   =================================================================== -/

/-- C6: For the ideal-gas mixture, `volume(mole_fractions, temperature,
pressure)` equals `R * temperature / pressure` with
`R = 8.31446261815324` exactly, for every temperature and every nonzero
pressure, and the returned value does not depend on the `mole_fractions`
argument. -/
theorem IdealGas.volume_ideal_gas_law
    (mole_fractions other_fractions : List ℚ) (temperature pressure : ℚ)
    (hP : pressure ≠ 0) :
    IdealGas.volume mole_fractions temperature pressure
        = 8.31446261815324 * temperature / pressure
    ∧ IdealGas.volume mole_fractions temperature pressure
        = IdealGas.volume other_fractions temperature pressure
    ∧ (8.31446261815324 : ℚ) = 831446261815324 / 100000000000000 := by
  refine ⟨?_, rfl, by norm_num⟩
  unfold IdealGas.volume
  rw [mul_div_assoc]

/-- Witness for C6: the ideal-gas law at the concrete input
temperature 300 K, pressure 2 Pa, with two different compositions. -/
theorem IdealGas.volume_ideal_gas_law_witness :
    (2 : ℚ) ≠ 0
    ∧ (IdealGas.volume [1] 300 2 = 8.31446261815324 * 300 / 2
       ∧ IdealGas.volume [1] 300 2 = IdealGas.volume [5, 7] 300 2
       ∧ (8.31446261815324 : ℚ) = 831446261815324 / 100000000000000) :=
  ⟨by norm_num, IdealGas.volume_ideal_gas_law [1] [5, 7] 300 2 (by norm_num)⟩

/-- C7: For every composition matrix (one row per substance, one column
per grid node) whose column total at a node is nonzero, the mole
fractions computed by `Abstract_Mix.mol_fracations` (each entry divided
by its column total) sum to 1 across substances at that node, exactly. -/
theorem Abstract_Mix.mol_fracations_sum_one {n m : ℕ}
    (moles : Fin n → Fin m → ℚ) (j : Fin m)
    (h : Abstract_Mix.total_moles moles j ≠ 0) :
    ∑ i, Abstract_Mix.mol_fracations moles i j = 1 := by
  unfold Abstract_Mix.mol_fracations
  rw [← Finset.sum_div]
  exact div_self h

/-- Witness for C7: a concrete 2-substance, 1-node composition with
nonzero total. -/
theorem Abstract_Mix.mol_fracations_sum_one_witness :
    Abstract_Mix.total_moles (fun _ _ => (1 : ℚ) : Fin 2 → Fin 1 → ℚ) 0 ≠ 0
    ∧ ∑ i, Abstract_Mix.mol_fracations
        (fun _ _ => (1 : ℚ) : Fin 2 → Fin 1 → ℚ) i 0 = 1 :=
  ⟨by norm_num [Abstract_Mix.total_moles],
   Abstract_Mix.mol_fracations_sum_one _ 0
     (by norm_num [Abstract_Mix.total_moles])⟩

/-- C9: A single call to `partial_P_2_conc` rebinds the instance
attribute named `partial_pressures` to the input array, shadowing the
method of the same name: afterwards, attribute lookup on the same object
yields the array, which is not callable, while on an object without the
instance attribute it yields the bound method. -/
theorem Abstract_Mix.partial_P_2_conc_shadows_method
    (o : MixObj) (pps : List ℚ) (temperature : ℚ) :
    (Abstract_Mix.partial_P_2_conc o pps temperature).1.getattr_partial_pressures
        = PPAttr.arrayVal pps
    ∧ PPAttr.callable
        (Abstract_Mix.partial_P_2_conc o pps temperature).1.getattr_partial_pressures
        = false
    ∧ MixObj.getattr_partial_pressures { partial_pressures_attr := none }
        = PPAttr.boundMethod
    ∧ PPAttr.callable PPAttr.boundMethod = true :=
  ⟨rfl, rfl, rfl, rfl⟩

/-- C3: `simulate` hands the residual and boundary functions to the
external BVP solver and stores the solver's full result object — carrying
its `status`/`success` termination flags — in `self.simulation`, alongside
the packaged results table in `self._sim_df`; so a failed run is
distinguishable from a converged one, and callers can inspect the
converged/failed status of the stored result before trusting the table. -/
theorem PFR.simulate_surfaces_solver_status
    (solver : Unit → BvpResult) (names : List String) (st : PFRState) :
    (PFR.simulate solver names st).simulation = some (solver ())
    ∧ (PFR.simulate solver names st).simulation.map BvpResult.success
        = some (solver ()).success
    ∧ (PFR.simulate solver names st).sim_df
        = some (packageResult (solver ()) names)
    ∧ ((solver ()).success = true ↔ (solver ()).status = 0) :=
  ⟨rfl, rfl, rfl, by simp [BvpResult.success]⟩

/-- C1: For boundary data assembled by `border_conditions_builder`,
`border_conditions(ya, yb)` is exactly the list of inlet residuals
`ya[i] - inlet value` for the rows `i` with a specified inlet value,
followed by the outlet residuals `yb[i] - outlet value` for the rows with
a specified outlet value; both index lists are strictly increasing (hence
duplicate-free: one residual term per specified row and edge, none for an
unspecified edge), so a row with only an inlet value contributes one `ya`
term and no `yb` term, symmetrically for outlet-only, and a row with both
contributes one term from each edge. -/
theorem PFR.border_conditions_residual_layout
    (mass_bc temperature_bc pressure_bc : BalanceBC) (ya yb : ℕ → ℚ) :
    PFR.border_conditions (border_conditions_builder mass_bc temperature_bc pressure_bc) ya yb
      = (border_conditions_builder mass_bc temperature_bc pressure_bc).in_index.map
          (fun i => ya i -
            ((border_conditions_builder mass_bc temperature_bc pressure_bc).inlet_conditions.getD i none).getD 0)
        ++ (border_conditions_builder mass_bc temperature_bc pressure_bc).out_index.map
          (fun i => yb i -
            ((border_conditions_builder mass_bc temperature_bc pressure_bc).outlet_conditions.getD i none).getD 0)
    ∧ List.Pairwise (· < ·)
        (border_conditions_builder mass_bc temperature_bc pressure_bc).in_index
    ∧ List.Pairwise (· < ·)
        (border_conditions_builder mass_bc temperature_bc pressure_bc).out_index
    ∧ (border_conditions_builder mass_bc temperature_bc pressure_bc).in_index.Nodup
    ∧ (border_conditions_builder mass_bc temperature_bc pressure_bc).out_index.Nodup
    ∧ (∀ i : ℕ,
        i ∈ (border_conditions_builder mass_bc temperature_bc pressure_bc).in_index
          ↔ ((border_conditions_builder mass_bc temperature_bc pressure_bc).inlet_conditions.getD i none).isSome = true)
    ∧ (∀ i : ℕ,
        i ∈ (border_conditions_builder mass_bc temperature_bc pressure_bc).out_index
          ↔ ((border_conditions_builder mass_bc temperature_bc pressure_bc).outlet_conditions.getD i none).isSome = true) := by
  refine ⟨?_, pairwise_specified_indices _, pairwise_specified_indices _,
    nodup_specified_indices _, nodup_specified_indices _,
    fun i => mem_specified_indices _ i, fun i => mem_specified_indices _ i⟩
  unfold PFR.border_conditions
  rw [foldl_append_singleton, foldl_append_singleton]
  simp

/-- C2: For every `Kinetics` instance whose stoichiometry matrix is
balanced with respect to an atomic-mass vector `mass` (each row dotted
with `mass` gives zero, one zero per reaction), and for every composition,
temperature and pressure input, the per-substance net-rate vector returned
by `kinetic_eval` — the matrix product of the per-reaction rate vector with
the stoichiometry matrix — summed over substances weighted by `mass`, is
zero. -/
theorem Kinetics.kinetic_eval_mass_conservation
    (k : Kinetics) (moles : List ℚ) (temperature pressure : ℚ) (mass : List ℚ)
    (hw : (k.stoichiometry.headD []).length = mass.length)
    (hbal : ∀ r < k.stoichiometry.length,
      ∑ s in Finset.range mass.length,
        (k.stoichiometry.getD r []).getD s 0 * mass.getD s 0 = 0) :
    ∑ s in Finset.range mass.length,
      (k.kinetic_eval moles temperature pressure).1.getD s 0 * mass.getD s 0 = 0 := by
  have hstep : ∀ s ∈ Finset.range mass.length,
      (k.kinetic_eval moles temperature pressure).1.getD s 0 * mass.getD s 0
        = ∑ r in Finset.range k.stoichiometry.length,
            (k.reactions.map (fun reaction =>
                reaction (k.composition_calculator moles temperature pressure)
                  temperature)).getD r 0
              * (k.stoichiometry.getD r []).getD s 0 * mass.getD s 0 := by
    intro s hs
    have hs' : s < (k.stoichiometry.headD []).length :=
      hw ▸ Finset.mem_range.mp hs
    show (vecMatMul _ k.stoichiometry).getD s 0 * mass.getD s 0 = _
    unfold vecMatMul
    rw [getD_range_map _ hs', Finset.sum_mul]
  rw [Finset.sum_congr rfl hstep, Finset.sum_comm]
  refine Finset.sum_eq_zero fun r hr => ?_
  have hb := hbal r (Finset.mem_range.mp hr)
  calc
    ∑ s in Finset.range mass.length,
        (k.reactions.map (fun reaction =>
            reaction (k.composition_calculator moles temperature pressure)
              temperature)).getD r 0
          * (k.stoichiometry.getD r []).getD s 0 * mass.getD s 0
      = (k.reactions.map (fun reaction =>
            reaction (k.composition_calculator moles temperature pressure)
              temperature)).getD r 0
          * ∑ s in Finset.range mass.length,
              (k.stoichiometry.getD r []).getD s 0 * mass.getD s 0 := by
        rw [Finset.mul_sum]
        exact Finset.sum_congr rfl fun s _ => mul_assoc _ _ _
    _ = 0 := by rw [hb, mul_zero]

/-- Witness for C2: the balanced single reaction `A -> B` with
stoichiometry `[[-1, 1]]` and atomic masses `[1, 1]`; the weighted sum of
the net rates at a concrete input is zero. -/
theorem Kinetics.kinetic_eval_mass_conservation_witness :
    (((⟨[fun c _ => c.getD 0 0], ⟨"liquid", [], []⟩, [[-1, 1]],
        fun mo _ _ => mo⟩ : Kinetics).stoichiometry.headD []).length
      = ([1, 1] : List ℚ).length)
    ∧ (∀ r < (⟨[fun c _ => c.getD 0 0], ⟨"liquid", [], []⟩, [[-1, 1]],
          fun mo _ _ => mo⟩ : Kinetics).stoichiometry.length,
        ∑ s in Finset.range ([1, 1] : List ℚ).length,
          ((⟨[fun c _ => c.getD 0 0], ⟨"liquid", [], []⟩, [[-1, 1]],
              fun mo _ _ => mo⟩ : Kinetics).stoichiometry.getD r []).getD s 0
            * ([1, 1] : List ℚ).getD s 0 = 0)
    ∧ ∑ s in Finset.range ([1, 1] : List ℚ).length,
        ((⟨[fun c _ => c.getD 0 0], ⟨"liquid", [], []⟩, [[-1, 1]],
            fun mo _ _ => mo⟩ : Kinetics).kinetic_eval [2, 3] 300 1).1.getD s 0
          * ([1, 1] : List ℚ).getD s 0 = 0 := by
  refine ⟨rfl, ?_, ?_⟩
  · intro r hr
    rcases Nat.lt_one_iff.mp hr with rfl
    norm_num [Finset.sum_range_succ]
  · exact Kinetics.kinetic_eval_mass_conservation _ [2, 3] 300 1 [1, 1] rfl
      (by
        intro r hr
        rcases Nat.lt_one_iff.mp hr with rfl
        norm_num [Finset.sum_range_succ])

/-- C4: For every `Kinetics` instance whose mixture phase is `"gas"` or
`"liquid"`, `reaction_enthalpies(298.15, pressure)` equals the standard
reaction enthalpies (the stoichiometry matrix dotted with the mixture's
formation enthalpies) exactly, for every pressure, because each
substance's heat-capacity definite integral over the zero-width interval
from 298.15 K to 298.15 K is zero. -/
theorem Kinetics.reaction_enthalpies_at_reference
    (k : Kinetics) (pressure : ℚ)
    (hphase : k.mix.phase = "gas" ∨ k.mix.phase = "liquid")
    (hg : ∀ s ∈ k.mix.substances, s.heat_capacity_gas_integral t_0 t_0 = 0)
    (hl : ∀ s ∈ k.mix.substances, s.heat_capacity_liquid_integral t_0 t_0 = 0) :
    k.reaction_enthalpies t_0 pressure = some k.std_reaction_enthalpies := by
  have key : ∀ f : SubstanceM → ℚ, (∀ s ∈ k.mix.substances, f s = 0) →
      List.zipWith (· + ·)
        (matVecMul k.stoichiometry (k.mix.substances.map f))
        k.std_reaction_enthalpies = k.std_reaction_enthalpies := by
    intro f hf
    have hz : ∀ x ∈ k.mix.substances.map f, x = 0 := by
      intro x hx
      obtain ⟨s, hs, rfl⟩ := List.mem_map.mp hx
      exact hf s hs
    unfold Kinetics.std_reaction_enthalpies matVecMul
    rw [zipWith_add_map]
    exact map_congr_all _ _ _ fun row _ => by
      rw [dotList_zero_right row _ hz, zero_add]
  rcases hphase with h | h
  · unfold Kinetics.reaction_enthalpies
    rw [h, if_neg (by decide), if_pos rfl]
    exact congrArg some (key _ hg)
  · unfold Kinetics.reaction_enthalpies
    rw [h, if_pos rfl]
    exact congrArg some (key _ hl)

/-- Witness for C4: a concrete one-substance gas-phase kinetics whose
heat-capacity integral functions are genuine definite integrals of a
constant correlation (`fun a b => b - a`), evaluated at the reference
temperature. -/
theorem Kinetics.reaction_enthalpies_at_reference_witness :
    ((⟨[], ⟨"gas", [⟨fun a b => b - a, fun a b => b - a, 5⟩], [5]⟩, [[-1]],
        fun mo _ _ => mo⟩ : Kinetics).mix.phase = "gas"
      ∨ (⟨[], ⟨"gas", [⟨fun a b => b - a, fun a b => b - a, 5⟩], [5]⟩, [[-1]],
          fun mo _ _ => mo⟩ : Kinetics).mix.phase = "liquid")
    ∧ (∀ s ∈ (⟨[], ⟨"gas", [⟨fun a b => b - a, fun a b => b - a, 5⟩], [5]⟩, [[-1]],
          fun mo _ _ => mo⟩ : Kinetics).mix.substances,
        s.heat_capacity_gas_integral t_0 t_0 = 0)
    ∧ (∀ s ∈ (⟨[], ⟨"gas", [⟨fun a b => b - a, fun a b => b - a, 5⟩], [5]⟩, [[-1]],
          fun mo _ _ => mo⟩ : Kinetics).mix.substances,
        s.heat_capacity_liquid_integral t_0 t_0 = 0)
    ∧ (⟨[], ⟨"gas", [⟨fun a b => b - a, fun a b => b - a, 5⟩], [5]⟩, [[-1]],
        fun mo _ _ => mo⟩ : Kinetics).reaction_enthalpies t_0 101325
      = some (⟨[], ⟨"gas", [⟨fun a b => b - a, fun a b => b - a, 5⟩], [5]⟩, [[-1]],
          fun mo _ _ => mo⟩ : Kinetics).std_reaction_enthalpies := by
  have hg : ∀ s ∈ (⟨[], ⟨"gas", [⟨fun a b => b - a, fun a b => b - a, 5⟩], [5]⟩, [[-1]],
      fun mo _ _ => mo⟩ : Kinetics).mix.substances,
      s.heat_capacity_gas_integral t_0 t_0 = 0 := by
    intro s hs
    rcases List.mem_singleton.mp hs with rfl
    simp
  have hl : ∀ s ∈ (⟨[], ⟨"gas", [⟨fun a b => b - a, fun a b => b - a, 5⟩], [5]⟩, [[-1]],
      fun mo _ _ => mo⟩ : Kinetics).mix.substances,
      s.heat_capacity_liquid_integral t_0 t_0 = 0 := by
    intro s hs
    rcases List.mem_singleton.mp hs with rfl
    simp
  exact ⟨Or.inl rfl, hg, hl,
    Kinetics.reaction_enthalpies_at_reference _ 101325 (Or.inl rfl) hg hl⟩

/-- C5: A flat single-reaction stoichiometry list and the equivalent
1-by-N 2-D array normalise to the same internal
`(num_reactions, total_comp)` matrix in `Kinetics.__init__`, and the two
resulting `Kinetics` instances return identical `kinetic_eval` results on
every composition, temperature and pressure input. -/
theorem Kinetics.kinetic_eval_flat_eq_twoD
    (coeffs : List ℚ) (reactions : List (List ℚ → ℚ → ℚ)) (mix : MixM)
    (cc : List ℚ → ℚ → ℚ → List ℚ) (moles : List ℚ) (temperature pressure : ℚ) :
    normalize_stoichiometry (StoichiometryInput.flat coeffs)
        = normalize_stoichiometry (StoichiometryInput.twoD [coeffs])
    ∧ (StoichiometryInput.flat coeffs).num_reactions
        = (StoichiometryInput.twoD [coeffs]).num_reactions
    ∧ (StoichiometryInput.flat coeffs).total_comp
        = (StoichiometryInput.twoD [coeffs]).total_comp
    ∧ Kinetics.kinetic_eval
        ⟨reactions, mix, normalize_stoichiometry (StoichiometryInput.flat coeffs), cc⟩
        moles temperature pressure
      = Kinetics.kinetic_eval
        ⟨reactions, mix, normalize_stoichiometry (StoichiometryInput.twoD [coeffs]), cc⟩
        moles temperature pressure := by
  have hnorm : normalize_stoichiometry (StoichiometryInput.flat coeffs)
      = normalize_stoichiometry (StoichiometryInput.twoD [coeffs]) := by
    simp [normalize_stoichiometry, StoichiometryInput.flatten,
      StoichiometryInput.num_reactions, StoichiometryInput.total_comp,
      reshapeRows]
  exact ⟨hnorm, rfl, rfl, by rw [hnorm]⟩

/-- C8 counterexample: the claim says constructing an Ergun balance with
both an inlet and an outlet pressure specified raises a `ValueError`; but
with inlet pressure `0.0` (a specified value that is falsy in Python) and
outlet pressure `101325`, `Ergun.__init__` succeeds. -/
theorem Ergun.init_zero_inlet_counterexample :
    (Ergun.init (some 0, some 101325) 0.4 0.005).isOk = true
    ∧ (some (0 : ℚ)).isSome = true
    ∧ (some (101325 : ℚ)).isSome = true := by
  refine ⟨?_, rfl, rfl⟩
  norm_num [Ergun.init, pyTruthy, Except.isOk, Except.toBool]

/-- C8 amended: `Ergun.__init__` raises the `ValueError` exactly when
both the inlet (`"in"`) and outlet (`"out"`) pressures are present with
nonzero (Python-truthy) values; in particular, with exactly one of the two
specified — or with one of them specified as `0.0` — construction
succeeds. -/
theorem Ergun.init_error_iff_truthy_both
    (inlet outlet : Option ℚ) (porosity particle_diameter : ℚ) :
    (∃ e, Ergun.init (inlet, outlet) porosity particle_diameter = Except.error e)
      ↔ ((∃ a, inlet = some a ∧ a ≠ 0) ∧ (∃ b, outlet = some b ∧ b ≠ 0)) := by
  rw [← pyTruthy_iff, ← pyTruthy_iff]
  cases hi : pyTruthy inlet <;> cases ho : pyTruthy outlet <;>
    simp [Ergun.init, hi, ho]

/-- C10: For every `IdealGas_Mix` with a nonempty substance list and
every query temperature, `pure_heat_capacities_integral` never returns
normally: in the first loop iteration `np.append` is called with the
single tuple argument `(correction_enthalpies, integral)` and no `values`
argument, which raises a `TypeError` instead of returning the corrected
formation enthalpies. -/
theorem IdealGas_Mix.pure_heat_capacities_integral_errors
    (m : IdealGas_Mix) (temperature : ℚ) (h : m.substances ≠ []) :
    m.pure_heat_capacities_integral temperature
      = Except.error np_append_missing_values_msg := by
  unfold IdealGas_Mix.pure_heat_capacities_integral
  cases hms : m.substances with
  | nil => exact absurd hms h
  | cons s rest => rfl

/-- Witness for C10: a concrete one-substance ideal-gas mixture; the call
raises instead of returning. -/
theorem IdealGas_Mix.pure_heat_capacities_integral_errors_witness :
    (⟨[⟨fun a b => b - a, fun a b => b - a, 2⟩]⟩ : IdealGas_Mix).substances ≠ []
    ∧ (⟨[⟨fun a b => b - a, fun a b => b - a, 2⟩]⟩ : IdealGas_Mix).pure_heat_capacities_integral 400
        = Except.error np_append_missing_values_msg :=
  ⟨List.cons_ne_nil _ _,
   IdealGas_Mix.pure_heat_capacities_integral_errors _ 400 (List.cons_ne_nil _ _)⟩
